import Mathlib

/-!
# Verification of the gift-price-analyzer scoring and ranking engine

Shallow embedding of the pure computational core of the repository:

* `Engine` — `src/utils/engine.ts` (`calculateGiftScore`, `calculateValue`).
  JavaScript numbers are modelled as real numbers (`ℝ`) where the code uses
  transcendental functions (`Math.log10`, `Math.log2`, `Math.exp`), and as
  rationals (`ℚ`) where only field arithmetic and comparisons occur.
  A possibly-non-finite JavaScript number (`NaN`, `±Infinity`) is modelled
  as `Option ℚ`, with `none` standing for any non-finite value, so that the
  `Number.isFinite` guards of the source translate to pattern matches.
* `PriceTable` — `src/app/components/PriceTable.tsx` (`calcPop`,
  `analyticsStatus`, `VALUE_P85`, `buildRows`).
* `GiftTable` — the unnamed client component with the
  `maxPrice` / `minRating` filter toolbar (its `rows` `useMemo` pipeline).

JavaScript's `Array.prototype.sort` is required by the ECMAScript standard to
be stable; it is modelled by `List.mergeSort`, which is stable, applied to the
boolean comparator `comparator(a, b) ≤ 0` derived from the source's comparator.
`localeCompare` is modelled by the codepoint lexicographic order on strings;
only its totality, transitivity and equality behaviour matter for the
properties proved here.
-/

namespace Engine

/-- Input record of `calculateGiftScore` (`GiftScoreInput` in
`src/utils/engine.ts`). -/
structure GiftScoreInput where
  stars : ℝ
  daysSinceAdded : ℝ
  reviews : ℝ
  maxReviews : ℝ
  price : ℝ

/-- Output record of `calculateGiftScore` (`ScoreComponents` in
`src/utils/engine.ts`). -/
structure ScoreComponents where
  R : ℝ
  N : ℝ
  Pop : ℝ
  weighted : ℝ
  score : ℝ

/-- `calculateGiftScore` from `src/utils/engine.ts`:
clamps the inputs, computes the three sub-components
`R = (stars / 5) * 10`, `N = 10 * exp(-days / 180)`,
`Pop = maxReviews <= 0 ? 0 : (log10(reviews+1) / log10(maxReviews+1)) * 10`,
the weighted sum `R*0.4 + N*0.35 + Pop*0.25`, and divides by `log2(price)`
unless that logarithm is zero. -/
noncomputable def calculateGiftScore (item : GiftScoreInput) : ScoreComponents :=
  let stars := min (max item.stars 0) 5
  let days := max item.daysSinceAdded 0
  let reviews := max item.reviews 0
  let maxReviews := max item.maxReviews 0
  let safePrice := max item.price 1
  let R := (stars / 5) * 10
  let N := 10 * Real.exp (-days / 180)
  let Pop :=
    if maxReviews ≤ 0 then 0
    else (Real.logb 10 (reviews + 1) / Real.logb 10 (maxReviews + 1)) * 10
  let weighted := R * 0.4 + N * 0.35 + Pop * 0.25
  let logPrice := Real.logb 2 safePrice
  let score := if logPrice = 0 then weighted else weighted / logPrice
  ⟨R, N, Pop, weighted, score⟩

/-- `calculateValue` from `src/utils/engine.ts`.  `none` models a non-finite
JavaScript number, so the `!Number.isFinite(score) || !Number.isFinite(price)`
guard becomes the catch-all pattern. -/
def calculateValue (score : Option ℚ) (price : Option ℚ) : ℚ :=
  match score, price with
  | some s, some p => if p ≤ 0 then 0 else s / (p / 100)
  | _, _ => 0

end Engine

namespace PriceTable

/-- One entry of `data/gifts.json` as typed by `interface GiftData` in
`src/app/components/PriceTable.tsx`. -/
structure GiftData where
  id : ℕ
  title : String
  category : String
  price_min : ℚ
  price_max : ℚ
  query : String
  query_popularity : ℚ
  item_popularity : ℚ
  score : ℚ
  tags : List String

/-- `interface Row extends GiftData` in `PriceTable.tsx`: the derived fields
`value`, `popRating` and `analyticsPriority`. -/
structure Row extends GiftData where
  value : ℚ
  popRating : ℝ
  analyticsPriority : ℕ

/-- `calcPop` from `PriceTable.tsx`:
`if (!n || n <= 0) return 0; return Math.min(5, Math.max(0, Math.log10(n) - 1));`. -/
noncomputable def calcPop (n : ℝ) : ℝ :=
  if n ≤ 0 then 0 else min 5 (max 0 (Real.logb 10 n - 1))

/-- Return record of `analyticsStatus` in `PriceTable.tsx`. -/
structure AnalyticsStatus where
  label : String
  cls : String
  priority : ℕ

/-- `analyticsStatus` from `PriceTable.tsx`: the five-tier decision list,
evaluated top to bottom, first match wins. -/
def analyticsStatus (row : Row) (valueP85 : ℚ) : AnalyticsStatus :=
  if row.score > 9 ∧ row.item_popularity > 400 then
    ⟨"Стійкий попит", "border-teal-400   text-teal-700", 5⟩
  else if row.value ≥ valueP85 then
    ⟨"Обґрунтований вибір", "border-slate-400  text-slate-600", 4⟩
  else if row.score > 9 ∧ row.item_popularity < 200 then
    ⟨"Нішевий фаворит", "border-indigo-400 text-indigo-700", 3⟩
  else if row.item_popularity > 400 then
    ⟨"Висока затребуваність", "border-amber-400  text-amber-700", 2⟩
  else
    ⟨"Стандартна пропозиція", "border-slate-300 text-slate-500", 1⟩

/-- `VALUE_P85` from `PriceTable.tsx`, with the module-level `GIFTS` array
passed explicitly: keep the items with `price_min > 0`, map each to
`(score * 100) / price_min`, sort ascending, and take the element at index
`Math.floor(vals.length * 0.85)`, defaulting to `0` (the `?? 0`). -/
def VALUE_P85 (GIFTS : List GiftData) : ℚ :=
  let vals :=
    ((GIFTS.filter (fun g => decide (0 < g.price_min))).map
      (fun g => g.score * 100 / g.price_min)).mergeSort (fun a b => decide (a ≤ b))
  vals.getD (Nat.floor ((vals.length : ℚ) * 0.85)) 0

/-- The sortable column keys of `PriceTable.tsx` (`type SortKey`). -/
inductive SortKey where
  | title
  | category
  | price_min
  | item_popularity
  | query_popularity
  | score
  | value
  | analytics

/-- Sort direction (`type SortDir = 'asc' | 'desc'`). -/
inductive SortDir where
  | asc
  | desc

/-- The ascending "may precede" relation of the sort comparator in
`buildRows`: `comparator(a, b) <= 0`.  The source compares string-typed keys
with `localeCompare` (modelled by the lexicographic string order) and every
other key by numeric difference; the `'analytics'` key is mapped to the
`analyticsPriority` field. -/
def rowLeAsc (key : SortKey) (a b : Row) : Bool :=
  match key with
  | .title => decide (a.title ≤ b.title)
  | .category => decide (a.category ≤ b.category)
  | .price_min => decide (a.price_min ≤ b.price_min)
  | .item_popularity => decide (a.item_popularity ≤ b.item_popularity)
  | .query_popularity => decide (a.query_popularity ≤ b.query_popularity)
  | .score => decide (a.score ≤ b.score)
  | .value => decide (a.value ≤ b.value)
  | .analytics => decide (a.analyticsPriority ≤ b.analyticsPriority)

/-- The "may precede" relation of `buildRows`' comparator for a direction:
descending swaps the comparator's arguments (`bv - av`). -/
def rowLe (key : SortKey) (dir : SortDir) (a b : Row) : Bool :=
  match dir with
  | .asc => rowLeAsc key a b
  | .desc => rowLeAsc key b a

/-- The `data.sort(comparator)` step of `buildRows`, as a stable sort by the
comparator's "may precede" relation. -/
def sortRows (key : SortKey) (dir : SortDir) (data : List Row) : List Row :=
  data.mergeSort (rowLe key dir)

/-- Substring test used to model `String.prototype.includes`. -/
def strIncludes (hay needle : String) : Bool :=
  (List.range (hay.length + 1)).any
    (fun i => (hay.toList.drop i).take needle.length == needle.toList)

/-- `buildRows` from `PriceTable.tsx`, with the module-level `GIFTS` passed
explicitly: per-item derived fields (`value`, `popRating`,
`analyticsPriority`), then the tag/category filter, then the search filter,
then the stable sort. -/
noncomputable def buildRows (GIFTS : List GiftData) (cat : String) (search : String)
    (sortKey : SortKey) (sortDir : SortDir) (valueP85 : ℚ) : List Row :=
  let needle := search.trim.toLower
  let isTag := cat.startsWith "tag:"
  let tagId := cat.drop 4
  let data : List Row := GIFTS.map (fun g =>
    let value := if 0 < g.price_min then g.score * 100 / g.price_min else 0
    let popRating := calcPop (g.item_popularity : ℝ)
    let row : Row := { g with value := value, popRating := popRating, analyticsPriority := 0 }
    { row with analyticsPriority := (analyticsStatus row valueP85).priority })
  let data :=
    if isTag ∧ tagId ≠ "" then data.filter (fun r => r.tags.contains tagId)
    else if cat ≠ "All" then data.filter (fun r => r.category == cat)
    else data
  let data :=
    if needle ≠ "" then
      data.filter (fun r =>
        strIncludes r.title.toLower needle || strIncludes r.category.toLower needle)
    else data
  sortRows sortKey sortDir data

end PriceTable

namespace GiftTable

/-- One entry of the simpler `gifts.json` schema used by the unnamed
`GiftTable` client component (`interface Gift`). -/
structure Gift where
  id : ℕ
  emoji : String
  name : String
  category : String
  price : ℚ
  rating : ℚ

/-- `interface GiftRow extends Gift`: adds `valueIndex = price / rating`
rounded to one decimal. -/
structure GiftRow extends Gift where
  valueIndex : ℚ

/-- The sortable column keys of the `GiftTable` component. -/
inductive SortKey where
  | name
  | category
  | price
  | rating
  | valueIndex

/-- Sort direction of the `GiftTable` component. -/
inductive SortDir where
  | asc
  | desc

/-- The state of a numeric filter text input (`maxPrice` / `minRating`),
after the JavaScript evaluation of `Number(s)`: the empty string, a
non-numeric string (`Number(s)` is `NaN`), or a numeric string with its
value. -/
inductive NumInput where
  | empty
  | nonNumeric
  | numeric (q : ℚ)

/-- The guard `s !== '' && !isNaN(Number(s))` of the filter chain: an empty
input and a non-numeric input both deactivate the filter. -/
def NumInput.active : NumInput → Bool
  | .empty => false
  | .nonNumeric => false
  | .numeric _ => true

/-- The numeric value `Number(s)` of an active filter input. -/
def NumInput.val : NumInput → ℚ
  | .numeric q => q
  | _ => 0

/-- `Math.round` of JavaScript: rounds half toward positive infinity. -/
def jsRound (x : ℚ) : ℤ := ⌊x + 1 / 2⌋

/-- The ascending "may precede" relation of the `GiftTable` sort comparator
(`comparator(a, b) <= 0`): `localeCompare` for the string keys, numeric
difference for the rest. -/
def giftLeAsc (key : SortKey) (a b : GiftRow) : Bool :=
  match key with
  | .name => decide (a.name ≤ b.name)
  | .category => decide (a.category ≤ b.category)
  | .price => decide (a.price ≤ b.price)
  | .rating => decide (a.rating ≤ b.rating)
  | .valueIndex => decide (a.valueIndex ≤ b.valueIndex)

/-- Directed "may precede" relation of the `GiftTable` comparator. -/
def giftLe (key : SortKey) (dir : SortDir) (a b : GiftRow) : Bool :=
  match dir with
  | .asc => giftLeAsc key a b
  | .desc => giftLeAsc key b a

/-- The `rows` `useMemo` pipeline of the `GiftTable` component, with the
module-level `GIFTS` passed explicitly: map to `GiftRow` with
`valueIndex = Math.round((price / rating) * 10) / 10`, then the category,
search, `maxPrice` and `minRating` filters, then the stable sort. -/
def rows (GIFTS : List Gift) (category : String) (search : String)
    (maxPrice : NumInput) (minRating : NumInput)
    (sortKey : SortKey) (sortDir : SortDir) : List GiftRow :=
  let data : List GiftRow := GIFTS.map (fun g =>
    { g with valueIndex := (jsRound ((g.price / g.rating) * 10) : ℚ) / 10 })
  let data :=
    if category ≠ "All" then data.filter (fun g => g.category == category) else data
  let data :=
    if search.trim ≠ "" then
      data.filter (fun g =>
        PriceTable.strIncludes g.name.toLower search.trim.toLower)
    else data
  let data :=
    if maxPrice.active then data.filter (fun g => decide (g.price ≤ maxPrice.val))
    else data
  let data :=
    if minRating.active then data.filter (fun g => decide (minRating.val ≤ g.rating))
    else data
  data.mergeSort (giftLe sortKey sortDir)

end GiftTable

/-- The clamp operation as the specification words it:
`clamp(x, lo, hi)` bounds `x` into `[lo, hi]`. -/
def clamp (x lo hi : ℝ) : ℝ :=
  max lo (min hi x)

/-- Base-10 logarithm of a power of ten. -/
theorem logb_ten_pow (k : ℕ) : Real.logb 10 ((10 : ℝ) ^ k) = k := by
  rw [Real.logb_pow, Real.logb_self_eq_one (by norm_num), mul_one]

/-- Claim C4: `calcPop` is `clamp(log10(rawCount) - 1, 0, 5)` for positive
counts and `0` otherwise, with the calibration points
`calcPop 100 = 1`, `calcPop 10000 = 3`, `calcPop 1000000 = 5`,
`calcPop 0 = 0`. -/
theorem calcPop_spec :
    (∀ n : ℝ, 0 < n → PriceTable.calcPop n = clamp (Real.logb 10 n - 1) 0 5) ∧
    (∀ n : ℝ, n ≤ 0 → PriceTable.calcPop n = 0) ∧
    PriceTable.calcPop 100 = 1 ∧ PriceTable.calcPop 10000 = 3 ∧
    PriceTable.calcPop 1000000 = 5 ∧ PriceTable.calcPop 0 = 0 := by
  have hpos : ∀ n : ℝ, 0 < n →
      PriceTable.calcPop n = clamp (Real.logb 10 n - 1) 0 5 := by
    intro n hn
    rw [PriceTable.calcPop, if_neg (not_le.mpr hn), clamp, max_min_distrib_left]
    norm_num
  have hpow : ∀ k : ℕ, PriceTable.calcPop ((10 : ℝ) ^ k) =
      min 5 (max 0 ((k : ℝ) - 1)) := by
    intro k
    rw [PriceTable.calcPop, if_neg (not_le.mpr (by positivity)), logb_ten_pow]
  refine ⟨hpos, fun n hn => by rw [PriceTable.calcPop, if_pos hn], ?_, ?_, ?_, ?_⟩
  · have := hpow 2
    norm_num at this
    simpa using this
  · have := hpow 4
    norm_num at this
    simpa using this
  · have := hpow 6
    norm_num at this
    simpa using this
  · rw [PriceTable.calcPop, if_pos le_rfl]

/-- Witness for C4: the clamp form at the concrete count `100` and the zero
case at `0`. -/
theorem calcPop_spec_witness :
    PriceTable.calcPop 100 = clamp (Real.logb 10 100 - 1) 0 5 ∧
    PriceTable.calcPop 0 = 0 :=
  ⟨calcPop_spec.1 100 (by norm_num), calcPop_spec.2.1 0 le_rfl⟩

/-- Claim C3: `calculateGiftScore` at `price = 0` and at `price = 1` (other
inputs equal) return identical results, and in both cases the logarithmic
divisor is skipped, so the score is the weighted sum
`R*0.4 + N*0.35 + Pop*0.25`. -/
theorem calculateGiftScore_price_floor (s d r m : ℝ) :
    Engine.calculateGiftScore ⟨s, d, r, m, 0⟩ =
      Engine.calculateGiftScore ⟨s, d, r, m, 1⟩ ∧
    (Engine.calculateGiftScore ⟨s, d, r, m, 0⟩).score =
      (Engine.calculateGiftScore ⟨s, d, r, m, 0⟩).R * 0.4 +
      (Engine.calculateGiftScore ⟨s, d, r, m, 0⟩).N * 0.35 +
      (Engine.calculateGiftScore ⟨s, d, r, m, 0⟩).Pop * 0.25 := by
  have h01 : max (0 : ℝ) 1 = 1 := max_eq_right zero_le_one
  constructor
  · simp only [Engine.calculateGiftScore, h01, max_self]
  · simp only [Engine.calculateGiftScore, h01, Real.logb_one, if_pos rfl, if_true]

/-- Counterexample to claim C2 as stated: the clamps only force
`reviews >= 0` and `maxReviews >= 0`, so with `reviews = 99` and
`maxReviews = 9` the popularity sub-component is
`(log10 100 / log10 10) * 10 = 20 > 10`. -/
theorem calculateGiftScore_Pop_exceeds_ten :
    ¬ ((Engine.calculateGiftScore ⟨0, 0, 99, 9, 1⟩).Pop ≤ 10) := by
  have h99 : max (99 : ℝ) 0 = 99 := max_eq_left (by norm_num)
  have h9 : max (9 : ℝ) 0 = 9 := max_eq_left (by norm_num)
  have e : (Engine.calculateGiftScore ⟨0, 0, 99, 9, 1⟩).Pop = 20 := by
    simp only [Engine.calculateGiftScore, h99, h9]
    rw [if_neg (by norm_num : ¬ (9 : ℝ) ≤ 0),
      (by norm_num : (99 : ℝ) + 1 = 10 ^ (2 : ℕ)),
      (by norm_num : (9 : ℝ) + 1 = 10 ^ (1 : ℕ)),
      logb_ten_pow, logb_ten_pow]
    norm_num
  rw [e]
  norm_num

/-- Claim C2 amended: under the documented invariant that `maxReviews` is
the catalogue-wide maximum of the review counts (`reviews <= maxReviews`),
the popularity sub-component lies in `[0, 10]`, and it is `0` whenever
`maxReviews <= 0`. -/
theorem calculateGiftScore_Pop_bounds (item : Engine.GiftScoreInput)
    (h : item.reviews ≤ item.maxReviews) :
    0 ≤ (Engine.calculateGiftScore item).Pop ∧
    (Engine.calculateGiftScore item).Pop ≤ 10 ∧
    (item.maxReviews ≤ 0 → (Engine.calculateGiftScore item).Pop = 0) := by
  simp only [Engine.calculateGiftScore]
  by_cases hm : max item.maxReviews 0 ≤ 0
  · rw [if_pos hm]
    norm_num
  · rw [if_neg hm]
    have hmpos : 0 < max item.maxReviews 0 := not_le.mp hm
    have hb : (1 : ℝ) < 10 := by norm_num
    have hrv : (0 : ℝ) ≤ max item.reviews 0 := le_max_right _ _
    have hden : 0 < Real.logb 10 (max item.maxReviews 0 + 1) :=
      Real.logb_pos hb (by linarith)
    have hnum : 0 ≤ Real.logb 10 (max item.reviews 0 + 1) :=
      Real.logb_nonneg hb (by linarith)
    have hle : max item.reviews 0 ≤ max item.maxReviews 0 := max_le_max h le_rfl
    have hmono : Real.logb 10 (max item.reviews 0 + 1) ≤
        Real.logb 10 (max item.maxReviews 0 + 1) :=
      Real.logb_le_logb_of_le hb (by linarith) (by linarith)
    have hratio : Real.logb 10 (max item.reviews 0 + 1) /
        Real.logb 10 (max item.maxReviews 0 + 1) ≤ 1 :=
      (div_le_one hden).mpr hmono
    have hratio0 : 0 ≤ Real.logb 10 (max item.reviews 0 + 1) /
        Real.logb 10 (max item.maxReviews 0 + 1) :=
      div_nonneg hnum hden.le
    refine ⟨by nlinarith, by nlinarith, fun h0 => ?_⟩
    have : max item.maxReviews 0 = 0 := max_eq_right h0
    linarith

/-- Witness for the amended C2: a concrete input with
`reviews = 3 <= maxReviews = 9` has its popularity component in `[0, 10]`. -/
theorem calculateGiftScore_Pop_bounds_witness :
    0 ≤ (Engine.calculateGiftScore ⟨0, 0, 3, 9, 1⟩).Pop ∧
    (Engine.calculateGiftScore ⟨0, 0, 3, 9, 1⟩).Pop ≤ 10 ∧
    ((9 : ℝ) ≤ 0 → (Engine.calculateGiftScore ⟨0, 0, 3, 9, 1⟩).Pop = 0) :=
  calculateGiftScore_Pop_bounds ⟨0, 0, 3, 9, 1⟩ (by norm_num)

/-- Claim C9: for a price strictly between 1 and 2 with a positive weighted
sum, the division by `log2(price) ∈ (0, 1)` amplifies the score above the
weighted sum, and the score grows without bound as the price approaches 1
from above: for every bound `M` some price in `(1, 2)` pushes the score of a
fixed five-star, brand-new item beyond `M`. -/
theorem calculateGiftScore_amplifies_near_one :
    (∀ item : Engine.GiftScoreInput, 1 < item.price → item.price < 2 →
      0 < (Engine.calculateGiftScore item).weighted →
      (Engine.calculateGiftScore item).weighted <
        (Engine.calculateGiftScore item).score) ∧
    (∀ M : ℝ, ∃ p : ℝ, 1 < p ∧ p < 2 ∧
      M < (Engine.calculateGiftScore ⟨5, 0, 0, 0, p⟩).score) := by
  have hb2 : (1 : ℝ) < 2 := by norm_num
  have hlogb : ∀ p : ℝ, 1 < p → p < 2 →
      0 < Real.logb 2 p ∧ Real.logb 2 p < 1 := by
    intro p h1 h2
    refine ⟨Real.logb_pos hb2 h1, ?_⟩
    calc Real.logb 2 p < Real.logb 2 2 := Real.logb_lt_logb hb2 (by linarith) h2
    _ = 1 := Real.logb_self_eq_one hb2
  constructor
  · intro item h1 h2 hw
    have hmax : max item.price 1 = item.price := max_eq_left h1.le
    have hl := hlogb item.price h1 h2
    revert hw
    simp only [Engine.calculateGiftScore, hmax]
    rw [if_neg (ne_of_gt hl.1)]
    intro hw
    rw [lt_div_iff₀ hl.1]
    exact mul_lt_of_lt_one_right hw hl.2
  · intro M
    set t : ℝ := 7.5 / (max M 0 + 8) with ht
    have hM8 : (7.5 : ℝ) < max M 0 + 8 := by
      have := le_max_right M 0
      linarith
    have htpos : 0 < t := by
      rw [ht]
      positivity
    have htlt : t < 1 := by
      rw [ht, div_lt_one (by linarith)]
      linarith
    refine ⟨(2 : ℝ) ^ t, ?_, ?_, ?_⟩
    · calc (1 : ℝ) = 2 ^ (0 : ℝ) := (Real.rpow_zero 2).symm
      _ < 2 ^ t := Real.rpow_lt_rpow_of_exponent_lt hb2 htpos
    · calc (2 : ℝ) ^ t < 2 ^ (1 : ℝ) := Real.rpow_lt_rpow_of_exponent_lt hb2 htlt
      _ = 2 := Real.rpow_one 2
    · have hp1 : 1 < (2 : ℝ) ^ t := by
        calc (1 : ℝ) = 2 ^ (0 : ℝ) := (Real.rpow_zero 2).symm
        _ < 2 ^ t := Real.rpow_lt_rpow_of_exponent_lt hb2 htpos
      have hmax : max ((2 : ℝ) ^ t) 1 = (2 : ℝ) ^ t := max_eq_left hp1.le
      simp only [Engine.calculateGiftScore, hmax]
      rw [Real.logb_rpow (by norm_num) (by norm_num), if_neg (ne_of_gt htpos)]
      have hstars : min (max (5 : ℝ) 0) 5 = 5 := by norm_num
      have hrev : max (0 : ℝ) 0 ≤ 0 := by norm_num
      rw [if_pos hrev, hstars]
      have hweighted : (5 : ℝ) / 5 * 10 * 0.4 +
          10 * Real.exp (-(max (0 : ℝ) 0) / 180) * 0.35 + 0 * 0.25 = 7.5 := by
        rw [max_self]
        norm_num [Real.exp_zero]
      have hmax0 : (0 : ℝ) ≤ max M 0 := le_max_right M 0
      have he : (7.5 : ℝ) / (7.5 / (max M 0 + 8)) = max M 0 + 8 := by
        rw [div_div_eq_mul_div, mul_comm, mul_div_assoc]
        norm_num
      rw [hweighted, ht, he]
      have := le_max_left M 0
      linarith

/-- Witness for C9: at the concrete price `1.5` the five-star, brand-new
item's score strictly exceeds its weighted sum. -/
theorem calculateGiftScore_amplifies_witness :
    (Engine.calculateGiftScore ⟨5, 0, 0, 0, 1.5⟩).weighted <
      (Engine.calculateGiftScore ⟨5, 0, 0, 0, 1.5⟩).score :=
  calculateGiftScore_amplifies_near_one.1 ⟨5, 0, 0, 0, 1.5⟩
    (by norm_num) (by norm_num)
    (by
      have hw : (Engine.calculateGiftScore ⟨5, 0, 0, 0, 1.5⟩).weighted = 7.5 := by
        simp only [Engine.calculateGiftScore]
        rw [if_pos (by norm_num : max (0 : ℝ) 0 ≤ 0), max_self,
          (by norm_num : min (max (5 : ℝ) 0) 5 = 5)]
        norm_num [Real.exp_zero]
      rw [hw]
      norm_num)

/-- The boolean order on `ℚ` used by the percentile sort is transitive. -/
theorem ratLeB_trans : ∀ a b c : ℚ,
    (fun a b : ℚ => decide (a ≤ b)) a b → (fun a b : ℚ => decide (a ≤ b)) b c →
    (fun a b : ℚ => decide (a ≤ b)) a c := by
  intro a b c h1 h2
  exact decide_eq_true (le_trans (of_decide_eq_true h1) (of_decide_eq_true h2))

/-- The boolean order on `ℚ` used by the percentile sort is total. -/
theorem ratLeB_total : ∀ a b : ℚ,
    ((fun a b : ℚ => decide (a ≤ b)) a b || (fun a b : ℚ => decide (a ≤ b)) b a) := by
  intro a b
  simpa [Bool.or_eq_true, decide_eq_true_eq] using le_total a b

/-- Claim C5: `VALUE_P85` restricts the corpus to items with
`price_min > 0`, maps each to `(score * 100) / price_min`, sorts the values
ascending, and takes the element at index `floor(n * 0.85)`; for a nonempty
value list that index is in range, an empty corpus yields `0`, and the
classifier still returns a priority between 1 and 5 for every row. -/
theorem VALUE_P85_spec :
    (∀ GIFTS : List PriceTable.GiftData, ∃ vals : List ℚ,
      vals.Perm ((GIFTS.filter (fun g => decide (0 < g.price_min))).map
        (fun g => g.score * 100 / g.price_min)) ∧
      List.Sorted (· ≤ ·) vals ∧
      PriceTable.VALUE_P85 GIFTS =
        vals.getD (Nat.floor ((vals.length : ℚ) * 0.85)) 0) ∧
    (∀ n : ℕ, 1 ≤ n → Nat.floor ((n : ℚ) * 0.85) < n) ∧
    PriceTable.VALUE_P85 [] = 0 ∧
    (∀ (row : PriceTable.Row) (valueP85 : ℚ),
      1 ≤ (PriceTable.analyticsStatus row valueP85).priority ∧
      (PriceTable.analyticsStatus row valueP85).priority ≤ 5) := by
  refine ⟨fun GIFTS => ?_, fun n hn => ?_, ?_, fun row valueP85 => ?_⟩
  · refine ⟨((GIFTS.filter (fun g => decide (0 < g.price_min))).map
      (fun g => g.score * 100 / g.price_min)).mergeSort
        (fun a b => decide (a ≤ b)), List.mergeSort_perm _ _, ?_, ?_⟩
    · have h := List.sorted_mergeSort ratLeB_trans ratLeB_total
        ((GIFTS.filter (fun g => decide (0 < g.price_min))).map
          (fun g => g.score * 100 / g.price_min))
      exact h.imp (fun hab => of_decide_eq_true hab)
    · rfl
  · rw [Nat.floor_lt (by positivity)]
    have hn' : (1 : ℚ) ≤ (n : ℚ) := by exact_mod_cast hn
    nlinarith
  · simp [PriceTable.VALUE_P85]
  · unfold PriceTable.analyticsStatus
    split_ifs <;> simp

/-- Witness for C5: at a list of 20 values the percentile index
`floor(20 * 0.85) = 17` is in range. -/
theorem VALUE_P85_spec_witness :
    Nat.floor (((20 : ℕ) : ℚ) * 0.85) < 20 :=
  VALUE_P85_spec.2.1 20 (by norm_num)

/-- The ascending comparator relation of `buildRows` is transitive for every
sort key. -/
theorem rowLeAsc_trans (key : PriceTable.SortKey) :
    ∀ a b c : PriceTable.Row, PriceTable.rowLeAsc key a b →
      PriceTable.rowLeAsc key b c → PriceTable.rowLeAsc key a c := by
  intro a b c hab hbc
  cases key <;>
    simp only [PriceTable.rowLeAsc, decide_eq_true_eq] at hab hbc ⊢ <;>
    exact le_trans hab hbc

/-- The ascending comparator relation of `buildRows` is total for every sort
key. -/
theorem rowLeAsc_total (key : PriceTable.SortKey) :
    ∀ a b : PriceTable.Row,
      (PriceTable.rowLeAsc key a b || PriceTable.rowLeAsc key b a) := by
  intro a b
  cases key <;>
    simp only [PriceTable.rowLeAsc, Bool.or_eq_true, decide_eq_true_eq] <;>
    exact le_total _ _

/-- The directed comparator relation of `buildRows` is transitive. -/
theorem rowLe_trans (key : PriceTable.SortKey) (dir : PriceTable.SortDir) :
    ∀ a b c : PriceTable.Row, PriceTable.rowLe key dir a b →
      PriceTable.rowLe key dir b c → PriceTable.rowLe key dir a c := by
  intro a b c
  cases dir
  · exact fun h1 h2 => rowLeAsc_trans key a b c h1 h2
  · exact fun h1 h2 => rowLeAsc_trans key c b a h2 h1

/-- The directed comparator relation of `buildRows` is total. -/
theorem rowLe_total (key : PriceTable.SortKey) (dir : PriceTable.SortDir) :
    ∀ a b : PriceTable.Row,
      (PriceTable.rowLe key dir a b || PriceTable.rowLe key dir b a) := by
  intro a b
  cases dir
  · exact rowLeAsc_total key a b
  · exact rowLeAsc_total key b a

/-- Claim C8: the pipeline's sort is stable — two rows whose sort-key values
compare equal (the comparator returns 0, i.e. the ascending relation holds
both ways) keep their relative order from the filtered input, for either
direction; consequently the ascending-descending-ascending round-trip also
preserves their relative order. -/
theorem sortRows_stable (key : PriceTable.SortKey) (dir : PriceTable.SortDir)
    (a b : PriceTable.Row) (l : List PriceTable.Row)
    (hab : PriceTable.rowLeAsc key a b) (hba : PriceTable.rowLeAsc key b a)
    (h : List.Sublist [a, b] l) :
    List.Sublist [a, b] (PriceTable.sortRows key dir l) ∧
    List.Sublist [a, b] (PriceTable.sortRows key .asc
      (PriceTable.sortRows key .desc (PriceTable.sortRows key .asc l))) := by
  have hd : ∀ dir' : PriceTable.SortDir, PriceTable.rowLe key dir' a b := by
    intro dir'
    cases dir'
    · exact hab
    · exact hba
  have step : ∀ (dir' : PriceTable.SortDir) (l' : List PriceTable.Row),
      List.Sublist [a, b] l' → List.Sublist [a, b] (PriceTable.sortRows key dir' l') := by
    intro dir' l' hl'
    show List.Sublist [a, b] (l'.mergeSort (PriceTable.rowLe key dir'))
    exact List.pair_sublist_mergeSort (rowLe_trans key dir') (rowLe_total key dir')
      (hd dir') hl'
  exact ⟨step dir l h, step _ _ (step _ _ (step _ _ h))⟩

/-- A concrete row used to witness sort stability. -/
def sampleRowA : PriceTable.Row :=
  ⟨⟨1, "a", "c", 10, 10, "q", 0, 100, 5, []⟩, 1, 0, 0⟩

/-- A second concrete row with the same score as `sampleRowA`. -/
def sampleRowB : PriceTable.Row :=
  ⟨⟨2, "b", "c", 20, 20, "q", 0, 200, 5, []⟩, 2, 0, 0⟩

/-- Witness for C8: two concrete rows with equal `score` keys keep their
order under a descending score sort and under the
ascending-descending-ascending round-trip. -/
theorem sortRows_stable_witness :
    List.Sublist [sampleRowA, sampleRowB]
      (PriceTable.sortRows .score .desc [sampleRowA, sampleRowB]) ∧
    List.Sublist [sampleRowA, sampleRowB] (PriceTable.sortRows .score .asc
      (PriceTable.sortRows .score .desc
        (PriceTable.sortRows .score .asc [sampleRowA, sampleRowB]))) :=
  sortRows_stable .score .desc sampleRowA sampleRowB [sampleRowA, sampleRowB]
    (by decide) (by decide) (List.Sublist.refl _)

/-- Claim C1: for every row with `score > 9.0` and `item_popularity > 400`,
`analyticsStatus` returns priority 5, regardless of whether
`value >= valueP85` also holds — the tier-5 condition is evaluated first and
the first match wins. -/
theorem analyticsStatus_priority_five (row : PriceTable.Row) (valueP85 : ℚ)
    (hs : row.score > 9) (hp : row.item_popularity > 400) :
    (PriceTable.analyticsStatus row valueP85).priority = 5 := by
  unfold PriceTable.analyticsStatus
  rw [if_pos ⟨hs, hp⟩]

/-- Witness for C1: a concrete row with `score = 9.5`,
`item_popularity = 500`, whose `value = 95` also satisfies the tier-4
condition (`valueP85 = 1`), still gets priority 5. -/
theorem analyticsStatus_priority_five_witness :
    (PriceTable.analyticsStatus
      ⟨⟨1, "t", "c", 10, 10, "q", 0, 500, 9.5, []⟩, 95, 0, 0⟩ 1).priority = 5 :=
  analyticsStatus_priority_five
    ⟨⟨1, "t", "c", 10, 10, "q", 0, 500, 9.5, []⟩, 95, 0, 0⟩ 1
    (by norm_num) (by norm_num)

/-- Claim C10: a row with `score > 9.0`, `item_popularity` between 200 and
400 inclusive, and `value` below the threshold matches none of the four
non-default tier conditions and falls through to priority 1. -/
theorem analyticsStatus_priority_default (row : PriceTable.Row) (valueP85 : ℚ)
    (hs : row.score > 9)
    (hlo : 200 ≤ row.item_popularity) (hhi : row.item_popularity ≤ 400)
    (hv : row.value < valueP85) :
    (PriceTable.analyticsStatus row valueP85).priority = 1 := by
  unfold PriceTable.analyticsStatus
  rw [if_neg (fun h => absurd h.2 (not_lt.mpr hhi)),
    if_neg (not_le.mpr hv),
    if_neg (fun h => absurd h.2 (not_lt.mpr hlo)),
    if_neg (not_lt.mpr hhi)]

/-- Witness for C10: a concrete row with `score = 9.5`,
`item_popularity = 300`, `value = 0` below the threshold `1` gets
priority 1. -/
theorem analyticsStatus_priority_default_witness :
    (PriceTable.analyticsStatus
      ⟨⟨2, "t", "c", 10, 10, "q", 0, 300, 9.5, []⟩, 0, 0, 0⟩ 1).priority = 1 :=
  analyticsStatus_priority_default
    ⟨⟨2, "t", "c", 10, 10, "q", 0, 300, 9.5, []⟩, 0, 0, 0⟩ 1
    (by norm_num) (by norm_num) (by norm_num) (by norm_num)

/-- Claim C6: `calculateValue` returns 0 on any non-finite argument and on
any `price <= 0`, and returns `score / (price / 100) = score * 100 / price`
for finite arguments with positive price; in particular a zero price or a
zero score gives value 0. -/
theorem calculateValue_spec :
    (∀ p : Option ℚ, Engine.calculateValue none p = 0) ∧
    (∀ s : Option ℚ, Engine.calculateValue s none = 0) ∧
    (∀ s p : ℚ, p ≤ 0 → Engine.calculateValue (some s) (some p) = 0) ∧
    (∀ s p : ℚ, 0 < p → Engine.calculateValue (some s) (some p) = s * 100 / p) ∧
    (∀ s : Option ℚ, Engine.calculateValue s (some 0) = 0) ∧
    (∀ p : ℚ, 0 < p → Engine.calculateValue (some 0) (some p) = 0) := by
  refine ⟨fun p => rfl, fun s => ?_, fun s p hp => ?_, fun s p hp => ?_,
    fun s => ?_, fun p hp => ?_⟩
  · cases s <;> rfl
  · simp [Engine.calculateValue, hp]
  · rw [Engine.calculateValue, if_neg (not_le.mpr hp), div_div_eq_mul_div]
  · cases s <;> simp [Engine.calculateValue]
  · rw [Engine.calculateValue, if_neg (not_le.mpr hp)]
    simp

/-- Witness for C6: concrete evaluations — `calculateValue 3 2 = 150`,
`calculateValue 3 (-1) = 0`, `calculateValue 0 5 = 0`. -/
theorem calculateValue_spec_witness :
    Engine.calculateValue (some 3) (some 2) = 3 * 100 / 2 ∧
    Engine.calculateValue (some 3) (some (-1)) = 0 ∧
    Engine.calculateValue (some 0) (some 5) = 0 :=
  ⟨calculateValue_spec.2.2.2.1 3 2 (by norm_num),
   calculateValue_spec.2.2.1 3 (-1) (by norm_num),
   calculateValue_spec.2.2.2.2.2 5 (by norm_num)⟩

/-- Claim C7: a non-numeric `maxPrice` input (e.g. `"abc"`, whose
`Number(..)` is `NaN`) leaves the price filter inactive, so the pipeline's
result equals the result with no `maxPrice` filter applied at all; the same
holds for a non-numeric `minRating`. -/
theorem rows_nonNumeric_filter_inactive
    (GIFTS : List GiftTable.Gift) (category search : String)
    (mp mr : GiftTable.NumInput)
    (sortKey : GiftTable.SortKey) (sortDir : GiftTable.SortDir) :
    GiftTable.rows GIFTS category search .nonNumeric mr sortKey sortDir =
      GiftTable.rows GIFTS category search .empty mr sortKey sortDir ∧
    GiftTable.rows GIFTS category search mp .nonNumeric sortKey sortDir =
      GiftTable.rows GIFTS category search mp .empty sortKey sortDir :=
  ⟨rfl, rfl⟩
